import Mathlib

/-!
Shallow embedding of darker's `src/darker/__main__.py`: the per-file
adaptive-retry reconciliation loop of `format_edited_parts`, the batch
generator over changed files, and `main`.

External collaborators (`apply_isort`, `EditedLinenumsDiffer.revision_vs_lines`,
`run_black`, `diff_and_get_opcodes`, `opcodes_to_chunks`, `choose_lines`,
`joinlines`, `verify_ast_unchanged`, and Python's `str.splitlines`) live in
other modules of the repository and are modelled as abstract function
parameters bundled in `FileEnv`; the control flow proved about here is
translated directly from `__main__.py`.  An explicit event trace records each
collaborator invocation together with its arguments, in source order.
-/

namespace Darker

/-- A sequence of text lines for one file revision. -/
abbrev Lines := List String

/-- Opcode shape from difflib as used by darker.diff:
tag together with half-open ranges (i1, i2) on the original side and
(j1, j2) on the reformatted side. -/
structure Opcode where
  tag : String
  i1 : Nat
  i2 : Nat
  j1 : Nat
  j2 : Nat
deriving DecidableEq, Repr

/-- A chunk: an opcode range together with the original-side and
reformatted-side line slices.  The builder itself
(darker.diff.opcodes_to_chunks) is an abstract collaborator; only the shape
is needed here. -/
structure Chunk where
  op : Opcode
  original : Lines
  reformatted : Lines
deriving DecidableEq, Repr

/-- darker.verification.NotEquivalentError (raised by verify_ast_unchanged). -/
inductive NotEquivalentError where
  | mk
deriving DecidableEq, Repr

/-- An exception raised by the black reformatter collaborator (run_black). -/
inductive BlackError where
  | mk
deriving DecidableEq, Repr

/-- Collaborator invocations of one `format_edited_parts` run, recorded in
source order with the arguments the source passes. -/
inductive Event where
  | revisionVsLines (lines : Lines) (context : Nat)
  | runBlack (content : String)
  | diffOp (a b : Lines)
  | toChunks (ops : List Opcode)
  | chooseOp (nums : List Nat)
  | concatOp (chosen : Lines)
  | verifyOp (edited result : String)
deriving DecidableEq, Repr

/-- The abstract collaborators used by `format_edited_parts` for one file.
Each field corresponds to one imported function of the source (none of which
is itself defined in `__main__.py`). -/
structure FileEnv where
  /-- darker.import_sorting.apply_isort, as a function of the content. -/
  apply_isort : String → String
  /-- EditedLinenumsDiffer.revision_vs_lines for this file's path:
  edited line numbers of the given lines vs. the revision, at a context. -/
  revision_vs_lines : Lines → Nat → List Nat
  /-- darker.black_diff.run_black on a content string; may raise. -/
  run_black : String → Except BlackError Lines
  /-- darker.diff.diff_and_get_opcodes. -/
  diff_and_get_opcodes : Lines → Lines → List Opcode
  /-- darker.diff.opcodes_to_chunks. -/
  opcodes_to_chunks : List Opcode → Lines → Lines → List Chunk
  /-- darker.chooser.choose_lines. -/
  choose_lines : List Chunk → List Nat → Lines
  /-- darker.utils.joinlines. -/
  joinlines : Lines → String
  /-- darker.verification.verify_ast_unchanged; raises NotEquivalentError. -/
  verify_ast_unchanged : String → String → List Chunk → List Nat →
    Except NotEquivalentError Unit
  /-- Python str.splitlines. -/
  splitlines : String → Lines

/-- The content black is run on: worktree content, isort-ed first when
`--isort` is enabled (source lines 72-81). -/
def editedContentOf (isortOn : Bool) (env : FileEnv) (worktree : String) : String :=
  if isortOn then env.apply_isort worktree else worktree

/-- Step 3 of the source: edited line numbers at a context margin. -/
def editedLinenums (env : FileEnv) (el : Lines) (m : Nat) : List Nat :=
  env.revision_vs_lines el m

/-- The short-circuit test of source lines 90-96:
enable_isort and not edited_linenums and edited_content == worktree_content. -/
def shortCircuitCond (isortOn : Bool) (env : FileEnv) (worktree ec : String)
    (el : Lines) (m : Nat) : Bool :=
  isortOn && (editedLinenums env el m).isEmpty && (ec == worktree)

/-- Step 5 of the source: opcodes of the diff between the edited lines and
black's output. -/
def opcodesOf (env : FileEnv) (el formatted : Lines) : List Opcode :=
  env.diff_and_get_opcodes el formatted

/-- Step 6 of the source: the opcodes converted to chunks. -/
def chunksOf (env : FileEnv) (el formatted : Lines) : List Chunk :=
  env.opcodes_to_chunks (opcodesOf env el formatted) el formatted

/-- Step 7 of the source: per-chunk choice between original and reformatted
lines, driven by the edited line numbers. -/
def chosenOf (env : FileEnv) (el formatted : Lines) (nums : List Nat) : Lines :=
  env.choose_lines (chunksOf env el formatted) nums

/-- Step 8 of the source: the chosen chunks concatenated into a string. -/
def resultStrOf (env : FileEnv) (el formatted : Lines) (nums : List Nat) : String :=
  env.joinlines (chosenOf env el formatted nums)

/-- Trace of one full (non-short-circuited, reformatter-succeeding) loop
iteration, in the order the source performs the steps (lines 87-125). -/
def iterEvents (env : FileEnv) (ec : String) (el : Lines) (m : Nat)
    (formatted : Lines) : List Event :=
  [Event.revisionVsLines el m,
   Event.runBlack ec,
   Event.diffOp el formatted,
   Event.toChunks (opcodesOf env el formatted),
   Event.chooseOp (editedLinenums env el m),
   Event.concatOp (chosenOf env el formatted (editedLinenums env el m)),
   Event.verifyOp ec (resultStrOf env el formatted (editedLinenums env el m))]

/-- One item yielded by format_edited_parts:
(worktree content, result string, chosen lines); the path is carried at
batch level. -/
structure FileResult where
  worktree : String
  result : String
  chosen : Lines
deriving DecidableEq, Repr

/-- How one iteration of the retry loop ends. -/
inductive StepOut where
  /-- The isort no-change check broke out of the loop (lines 90-96). -/
  | shortCircuit
  /-- run_black raised: the exception propagates (line 99 is outside the try). -/
  | blackFail
  /-- verify_ast_unchanged raised NotEquivalentError (lines 122-126). -/
  | verifyFail
  /-- Verification succeeded: yield if the result differs from the worktree
  content, then break (lines 139-148). -/
  | done (r : Option FileResult)
deriving DecidableEq, Repr

/-- One iteration of the retry loop of format_edited_parts (source lines
85-148), at context margin m, returning its event trace and outcome. -/
def tryMargin (isortOn : Bool) (env : FileEnv) (worktree ec : String)
    (el : Lines) (m : Nat) : List Event × StepOut :=
  if shortCircuitCond isortOn env worktree ec el m then
    ([Event.revisionVsLines el m], StepOut.shortCircuit)
  else
    match env.run_black ec with
    | Except.error _ =>
      ([Event.revisionVsLines el m, Event.runBlack ec], StepOut.blackFail)
    | Except.ok formatted =>
      match env.verify_ast_unchanged ec
          (resultStrOf env el formatted (editedLinenums env el m))
          (chunksOf env el formatted) (editedLinenums env el m) with
      | Except.error _ => (iterEvents env ec el m formatted, StepOut.verifyFail)
      | Except.ok _ =>
        (iterEvents env ec el m formatted,
         StepOut.done
           (if resultStrOf env el formatted (editedLinenums env el m) = worktree
            then none
            else some ⟨worktree,
                       resultStrOf env el formatted (editedLinenums env el m),
                       chosenOf env el formatted (editedLinenums env el m)⟩))

/-- A failure propagating out of format_edited_parts for one file. -/
inductive Failure where
  /-- run_black raised (not caught anywhere in format_edited_parts). -/
  | blackError
  /-- NotEquivalentError re-raised at maximum context (line 131-132). -/
  | notEquivalent
deriving DecidableEq, Repr

/-- The retry loop `for context_lines in range(max_context_lines + 1)` of the
source (lines 84-148), run over the remaining margins list.  mx is
max_context_lines; on NotEquivalentError at context == mx the error is
re-raised, otherwise the loop continues with the next margin. -/
def runMargins (isortOn : Bool) (env : FileEnv) (worktree ec : String)
    (el : Lines) (mx : Nat) :
    List Nat → List Event × Except Failure (Option FileResult)
  | [] => ([], Except.ok none)
  | m :: rest =>
    match (tryMargin isortOn env worktree ec el m).2 with
    | StepOut.shortCircuit =>
      ((tryMargin isortOn env worktree ec el m).1, Except.ok none)
    | StepOut.blackFail =>
      ((tryMargin isortOn env worktree ec el m).1, Except.error Failure.blackError)
    | StepOut.done r =>
      ((tryMargin isortOn env worktree ec el m).1, Except.ok r)
    | StepOut.verifyFail =>
      if m = mx then
        ((tryMargin isortOn env worktree ec el m).1,
         Except.error Failure.notEquivalent)
      else
        ((tryMargin isortOn env worktree ec el m).1 ++
           (runMargins isortOn env worktree ec el mx rest).1,
         (runMargins isortOn env worktree ec el mx rest).2)

/-- Processing of one changed file by format_edited_parts (source lines
68-148): compute the edited content (isort step), split it into lines, set
max_context_lines to the line count, and run the retry loop over margins
0 .. max_context_lines. -/
def processFile (isortOn : Bool) (env : FileEnv) (worktree : String) :
    List Event × Except Failure (Option FileResult) :=
  runMargins isortOn env worktree (editedContentOf isortOn env worktree)
    (env.splitlines (editedContentOf isortOn env worktree))
    (env.splitlines (editedContentOf isortOn env worktree)).length
    (List.range ((env.splitlines (editedContentOf isortOn env worktree)).length + 1))

/-- One changed file given to format_edited_parts: its path, its worktree
content and its collaborators. -/
structure FileInput where
  path : String
  worktree : String
  env : FileEnv

/-- What the caller of the generator format_edited_parts observes: the
items yielded (in order, up to a raise if any), whether a raise ended the
generator, and the full event trace. -/
structure GenOut where
  events : List Event
  yields : List (String × FileResult)
  failure : Option Failure

/-- format_edited_parts over a batch of changed files (source lines 68-148;
the linting steps 11-14 are out of scope of the claims and omitted).  An
exception while processing one file propagates out of the generator:
yields of earlier files have already been delivered, later files are never
processed. -/
def format_edited_parts (isortOn : Bool) : List FileInput → GenOut
  | [] => ⟨[], [], none⟩
  | f :: rest =>
    match (processFile isortOn f.env f.worktree).2 with
    | Except.error e => ⟨(processFile isortOn f.env f.worktree).1, [], some e⟩
    | Except.ok none =>
      ⟨(processFile isortOn f.env f.worktree).1 ++
         (format_edited_parts isortOn rest).events,
       (format_edited_parts isortOn rest).yields,
       (format_edited_parts isortOn rest).failure⟩
    | Except.ok (some r) =>
      ⟨(processFile isortOn f.env f.worktree).1 ++
         (format_edited_parts isortOn rest).events,
       (f.path, r) :: (format_edited_parts isortOn rest).yields,
       (format_edited_parts isortOn rest).failure⟩

/-- The command-line options of main relevant to the claims. -/
structure Args where
  check : Bool
  diff : Bool
  isort : Bool
deriving DecidableEq, Repr

/-- How main ends: exit(1) when --isort was given without the isort package,
an exception propagated from format_edited_parts, or a normal return code. -/
inductive MainOutcome where
  | exited (code : Nat)
  | raised (e : Failure)
  | returned (code : Nat)
deriving DecidableEq, Repr

/-- Observable behaviour of main: the modify_file calls it performed
(path and new content, in order) and how it ended. -/
structure MainOut where
  writes : List (String × String)
  outcome : MainOutcome

/-- darker.__main__.main (source lines 327-381), over the same abstract
collaborators: exit(1) if --isort was requested without the isort package;
otherwise iterate over format_edited_parts, call modify_file for each yield
unless --check or --diff was given, and return 1 exactly when --check was
given and something was yielded.  Yields delivered before a raise have been
written already; the raise then propagates. -/
def main (args : Args) (isortAvailable : Bool) (files : List FileInput) : MainOut :=
  if args.isort && !isortAvailable then ⟨[], MainOutcome.exited 1⟩
  else
    ⟨if args.check || args.diff then []
     else (format_edited_parts args.isort files).yields.map
       (fun y => (y.1, y.2.result)),
     match (format_edited_parts args.isort files).failure with
     | some e => MainOutcome.raised e
     | none =>
       MainOutcome.returned
         (if args.check && !(format_edited_parts args.isort files).yields.isEmpty
          then 1 else 0)⟩

/-- True exactly for the event that starts a loop iteration. -/
def isIterEvent : Event → Bool
  | Event.revisionVsLines _ _ => true
  | _ => false

/-- Number of retry-loop iterations recorded in a trace: every iteration
starts with exactly one revision_vs_lines call. -/
def countIterations (evs : List Event) : Nat := (evs.filter isIterEvent).length

/-- A concrete collaborator set whose verifier always raises
NotEquivalentError: reconciliation can never succeed. -/
def envVerifyFail : FileEnv where
  apply_isort := fun s => s
  revision_vs_lines := fun _ _ => [0]
  run_black := fun _ => Except.ok ["x"]
  diff_and_get_opcodes := fun _ _ => []
  opcodes_to_chunks := fun _ _ _ => []
  choose_lines := fun _ _ => ["x"]
  joinlines := fun _ => "x\n"
  verify_ast_unchanged := fun _ _ _ _ => Except.error NotEquivalentError.mk
  splitlines := fun _ => ["x"]

/-- A concrete collaborator set for a one-line file whose merged result
("x" + newline) differs from the worktree content ("y" + newline):
verification succeeds at margin 0 and a result is yielded. -/
def envOkChange : FileEnv where
  apply_isort := fun s => s
  revision_vs_lines := fun _ _ => [0]
  run_black := fun _ => Except.ok ["x"]
  diff_and_get_opcodes := fun _ _ => []
  opcodes_to_chunks := fun _ _ _ => []
  choose_lines := fun _ _ => ["x"]
  joinlines := fun _ => "x\n"
  verify_ast_unchanged := fun _ _ _ _ => Except.ok ()
  splitlines := fun _ => ["y"]

/-- A concrete collaborator set for a file identical to its baseline
revision: the differ reports no edited lines at any context margin, black
returns the file's own single line, and the merged result equals the
worktree content. -/
def envIdentical : FileEnv where
  apply_isort := fun s => s
  revision_vs_lines := fun _ _ => []
  run_black := fun _ => Except.ok ["x"]
  diff_and_get_opcodes := fun _ _ => []
  opcodes_to_chunks := fun _ _ _ => []
  choose_lines := fun _ _ => ["x"]
  joinlines := fun _ => "x\n"
  verify_ast_unchanged := fun _ _ _ _ => Except.ok ()
  splitlines := fun _ => ["x"]

/-- A concrete collaborator set whose reformatter raises on any input. -/
def envBlackFail : FileEnv where
  apply_isort := fun s => s
  revision_vs_lines := fun _ _ => [0]
  run_black := fun _ => Except.error BlackError.mk
  diff_and_get_opcodes := fun _ _ => []
  opcodes_to_chunks := fun _ _ _ => []
  choose_lines := fun _ _ => ["x"]
  joinlines := fun _ => "x\n"
  verify_ast_unchanged := fun _ _ _ _ => Except.ok ()
  splitlines := fun _ => ["x"]

/-- A concrete collaborator set where isort changes the file content
(from "y" + newline to "x" + newline) and the merged result equals the
post-isort edited content but differs from the worktree content. -/
def envIsortChanged : FileEnv where
  apply_isort := fun _ => "x\n"
  revision_vs_lines := fun _ _ => [0]
  run_black := fun _ => Except.ok ["x"]
  diff_and_get_opcodes := fun _ _ => []
  opcodes_to_chunks := fun _ _ _ => []
  choose_lines := fun _ _ => ["x"]
  joinlines := fun _ => "x\n"
  verify_ast_unchanged := fun _ _ _ _ => Except.ok ()
  splitlines := fun _ => ["x"]

/-- A changed file on which reconciliation fails at every margin. -/
def badFile : FileInput := ⟨"a.py", "x\n", envVerifyFail⟩

/-- A changed file which yields a reformatted result. -/
def goodFile : FileInput := ⟨"b.py", "y\n", envOkChange⟩

theorem countIterations_append (a b : List Event) :
    countIterations (a ++ b) = countIterations a + countIterations b := by
  simp [countIterations, List.filter_append]

/-- Every iteration of the retry loop performs exactly one
revision_vs_lines call, whichever way it ends. -/
theorem countIterations_tryMargin (isortOn : Bool) (env : FileEnv)
    (wt ec : String) (el : Lines) (m : Nat) :
    countIterations (tryMargin isortOn env wt ec el m).1 = 1 := by
  unfold tryMargin
  split
  · rfl
  · split
    · rfl
    · split
      · simp [iterEvents, countIterations, isIterEvent]
      · simp [iterEvents, countIterations, isIterEvent]

/-- The loop performs at most one iteration per entry of the margins list. -/
theorem countIterations_runMargins (isortOn : Bool) (env : FileEnv)
    (wt ec : String) (el : Lines) (mx : Nat) (margins : List Nat) :
    countIterations (runMargins isortOn env wt ec el mx margins).1 ≤
      margins.length := by
  induction margins with
  | nil => simp [runMargins, countIterations]
  | cons m rest ih =>
    simp only [runMargins]
    split
    · simp [countIterations_tryMargin]
    · simp [countIterations_tryMargin]
    · simp [countIterations_tryMargin]
    · split
      · simp [countIterations_tryMargin]
      · simp only [countIterations_append, countIterations_tryMargin,
          List.length_cons]
        omega

/-- When the isort no-change test fires, the iteration stops right after the
revision_vs_lines call. -/
theorem tryMargin_shortCircuit (isortOn : Bool) (env : FileEnv) (wt ec : String)
    (el : Lines) (m : Nat)
    (hcond : shortCircuitCond isortOn env wt ec el m = true) :
    tryMargin isortOn env wt ec el m =
      ([Event.revisionVsLines el m], StepOut.shortCircuit) := by
  unfold tryMargin
  rw [if_pos hcond]

/-- In one iteration, run_black is only ever called on the edited content. -/
theorem runBlack_arg_tryMargin (isortOn : Bool) (env : FileEnv) (wt ec : String)
    (el : Lines) (m : Nat) (s : String)
    (h : Event.runBlack s ∈ (tryMargin isortOn env wt ec el m).1) : s = ec := by
  unfold tryMargin at h
  split at h
  · simp at h
  · split at h
    · simp at h
      exact h
    · split at h <;> simp [iterEvents] at h <;> exact h

/-- Across the whole retry loop, run_black is only ever called on the edited
content. -/
theorem runBlack_arg_runMargins (isortOn : Bool) (env : FileEnv) (wt ec : String)
    (el : Lines) (mx : Nat) (margins : List Nat) (s : String)
    (h : Event.runBlack s ∈ (runMargins isortOn env wt ec el mx margins).1) :
    s = ec := by
  induction margins with
  | nil => simp [runMargins] at h
  | cons m rest ih =>
    rcases ho : (tryMargin isortOn env wt ec el m).2 with _ | _ | _ | r
    · simp only [runMargins, ho] at h
      exact runBlack_arg_tryMargin isortOn env wt ec el m s h
    · simp only [runMargins, ho] at h
      exact runBlack_arg_tryMargin isortOn env wt ec el m s h
    · simp only [runMargins, ho] at h
      by_cases hm : m = mx
      · rw [if_pos hm] at h
        exact runBlack_arg_tryMargin isortOn env wt ec el m s h
      · rw [if_neg hm] at h
        rcases List.mem_append.mp h with h1 | h2
        · exact runBlack_arg_tryMargin isortOn env wt ec el m s h1
        · exact ih h2
    · simp only [runMargins, ho] at h
      exact runBlack_arg_tryMargin isortOn env wt ec el m s h

/-- Claim C1: when AST verification of the merged result fails
(NotEquivalentError) at a context margin strictly below the maximum margin
mx (in processFile, mx is the line count of the edited content), the loop
retries with the margin incremented by 1 and the outcome is exactly that of
the continued loop, so the error is not visible to the caller; when
verification fails at a margin equal to the maximum margin, the error is
propagated to the caller. -/
theorem c1_verify_fail_retries_below_max_and_propagates_at_max
    (isortOn : Bool) (env : FileEnv) (wt ec : String) (el : Lines) (mx m : Nat)
    (hfail : (tryMargin isortOn env wt ec el m).2 = StepOut.verifyFail) :
    (∀ rest : List Nat, m < mx →
      (runMargins isortOn env wt ec el mx (m :: (m + 1) :: rest)).2 =
        (runMargins isortOn env wt ec el mx ((m + 1) :: rest)).2) ∧
    (m = mx → ∀ rest : List Nat,
      (runMargins isortOn env wt ec el mx (m :: rest)).2 =
        Except.error Failure.notEquivalent) := by
  constructor
  · intro rest hlt
    simp only [runMargins, hfail]
    rw [if_neg (Nat.ne_of_lt hlt)]
  · intro heq rest
    subst heq
    simp [runMargins, hfail]

/-- Witness for C1: with a verifier that always raises, failing at margin 0
of maximum 1 continues with margin 1 and failing at margin 1 propagates the
error. -/
theorem c1_witness :
    ((runMargins false envVerifyFail "x\n" "x\n" ["x"] 1 (0 :: 1 :: [])).2 =
      (runMargins false envVerifyFail "x\n" "x\n" ["x"] 1 (1 :: [])).2) ∧
    ((runMargins false envVerifyFail "x\n" "x\n" ["x"] 1 (1 :: [])).2 =
      Except.error Failure.notEquivalent) :=
  ⟨(c1_verify_fail_retries_below_max_and_propagates_at_max
      false envVerifyFail "x\n" "x\n" ["x"] 1 0 rfl).1 [] (by decide),
   (c1_verify_fail_retries_below_max_and_propagates_at_max
      false envVerifyFail "x\n" "x\n" ["x"] 1 1 rfl).2 rfl []⟩

/-- Claim C2: for every file the retry loop halts after at most
max_margin + 1 iterations, where max_margin is the number of lines of the
edited (post-isort) content of the file: the recorded trace contains at
most that many revision_vs_lines calls (and processFile is a total
function, so the loop always halts). -/
theorem c2_retry_loop_iteration_bound (isortOn : Bool) (env : FileEnv)
    (wt : String) :
    countIterations (processFile isortOn env wt).1 ≤
      (env.splitlines (editedContentOf isortOn env wt)).length + 1 := by
  have h := countIterations_runMargins isortOn env wt
    (editedContentOf isortOn env wt)
    (env.splitlines (editedContentOf isortOn env wt))
    (env.splitlines (editedContentOf isortOn env wt)).length
    (List.range ((env.splitlines (editedContentOf isortOn env wt)).length + 1))
  simpa [processFile, List.length_range] using h

/-- Counterexample to claim C3 as stated: a file identical to its baseline
(the differ reports no edited lines at margin 0, and the edited content
equals the worktree content) processed WITHOUT isort enabled does terminate
with no change, but run_black IS invoked: the short-circuit of source lines
90-96 requires enable_isort. -/
theorem c3_counterexample :
    editedLinenums envIdentical ["x"] 0 = [] ∧
    editedContentOf false envIdentical "x\n" = "x\n" ∧
    (processFile false envIdentical "x\n").2 = Except.ok none ∧
    Event.runBlack "x\n" ∈ (processFile false envIdentical "x\n").1 := by
  refine ⟨rfl, rfl, rfl, ?_⟩
  decide

/-- Claim C3 as amended: when isort is enabled, a file whose edited
line-number set is empty at margin 0 and whose edited content equals the
worktree content terminates with no change at margin 0, without invoking
run_black and without producing a merged result. -/
theorem c3_no_change_short_circuit_requires_isort (env : FileEnv) (wt : String)
    (hnums : editedLinenums env
      (env.splitlines (editedContentOf true env wt)) 0 = [])
    (heq : editedContentOf true env wt = wt) :
    (processFile true env wt).2 = Except.ok none ∧
    (∀ s, Event.runBlack s ∉ (processFile true env wt).1) ∧
    (∀ chosen, Event.concatOp chosen ∉ (processFile true env wt).1) := by
  have hcond : shortCircuitCond true env wt (editedContentOf true env wt)
      (env.splitlines (editedContentOf true env wt)) 0 = true := by
    simp only [shortCircuitCond, hnums]
    simp [heq]
  have ht := tryMargin_shortCircuit true env wt (editedContentOf true env wt)
    (env.splitlines (editedContentOf true env wt)) 0 hcond
  have heqn : processFile true env wt =
      ([Event.revisionVsLines (env.splitlines (editedContentOf true env wt)) 0],
       Except.ok none) := by
    unfold processFile
    rw [List.range_succ_eq_map]
    simp [runMargins, ht]
  refine ⟨by rw [heqn], ?_, ?_⟩ <;> intro x hx <;> rw [heqn] at hx <;> simp at hx

/-- Witness for the amended C3: with isort enabled on an unchanged file the
loop short-circuits without calling black. -/
theorem c3_witness :
    (processFile true envIdentical "x\n").2 = Except.ok none ∧
    (∀ s, Event.runBlack s ∉ (processFile true envIdentical "x\n").1) ∧
    (∀ chosen, Event.concatOp chosen ∉ (processFile true envIdentical "x\n").1) :=
  c3_no_change_short_circuit_requires_isort envIdentical "x\n" rfl rfl

/-- Counterexample to claim C4 as stated: with isort changing the file from
"y" to "x", the merged result equals the edited-worktree (post-isort)
content, yet a result IS yielded, because the source compares the merged
result against the original worktree content, not the post-isort edited
content. -/
theorem c4_counterexample :
    editedContentOf true envIsortChanged "y\n" = "x\n" ∧
    (processFile true envIsortChanged "y\n").2 =
      Except.ok (some ⟨"y\n", "x\n", ["x"]⟩) := by
  exact ⟨rfl, rfl⟩

/-- Claim C4 as amended: after successful AST verification,
format_edited_parts yields a result for the file if and only if the merged
result string differs from the file's ORIGINAL worktree content (pre-isort,
as read from disk); when they are equal nothing is emitted, and either way
iteration stops for that file (no events beyond this iteration). -/
theorem c4_yield_iff_result_differs_from_worktree (isortOn : Bool)
    (env : FileEnv) (wt ec : String) (el : Lines) (mx m : Nat)
    (rest : List Nat) (formatted : Lines)
    (hnoshort : shortCircuitCond isortOn env wt ec el m = false)
    (hblack : env.run_black ec = Except.ok formatted)
    (hverify : env.verify_ast_unchanged ec
      (resultStrOf env el formatted (editedLinenums env el m))
      (chunksOf env el formatted) (editedLinenums env el m) = Except.ok ()) :
    runMargins isortOn env wt ec el mx (m :: rest) =
      ((tryMargin isortOn env wt ec el m).1,
       Except.ok
         (if resultStrOf env el formatted (editedLinenums env el m) = wt
          then none
          else some ⟨wt, resultStrOf env el formatted (editedLinenums env el m),
                     chosenOf env el formatted (editedLinenums env el m)⟩)) := by
  have ht : (tryMargin isortOn env wt ec el m).2 =
      StepOut.done
        (if resultStrOf env el formatted (editedLinenums env el m) = wt
         then none
         else some ⟨wt, resultStrOf env el formatted (editedLinenums env el m),
                    chosenOf env el formatted (editedLinenums env el m)⟩) := by
    unfold tryMargin
    simp only [hnoshort, hblack, Bool.false_eq_true, if_false, hverify]
  simp [runMargins, ht]

/-- Witness for the amended C4: a verified merge differing from the worktree
content is yielded and the loop stops. -/
theorem c4_witness :
    shortCircuitCond false envOkChange "y\n" "y\n" ["y"] 0 = false ∧
    envOkChange.run_black "y\n" = Except.ok ["x"] ∧
    runMargins false envOkChange "y\n" "y\n" ["y"] 1 (0 :: 1 :: []) =
      ((tryMargin false envOkChange "y\n" "y\n" ["y"] 0).1,
       Except.ok
         (if resultStrOf envOkChange ["y"] ["x"] (editedLinenums envOkChange ["y"] 0) = "y\n"
          then none
          else some ⟨"y\n",
                     resultStrOf envOkChange ["y"] ["x"] (editedLinenums envOkChange ["y"] 0),
                     chosenOf envOkChange ["y"] ["x"] (editedLinenums envOkChange ["y"] 0)⟩)) :=
  ⟨rfl, rfl,
   c4_yield_iff_result_differs_from_worktree false envOkChange "y\n" "y\n"
     ["y"] 1 0 [1] ["x"] rfl rfl rfl⟩

/-- Counterexample to claim C5 as stated: a verification failure at maximum
margin on the first file of a batch aborts the whole batch: the second file,
which on its own yields a result, is never processed and yields nothing. -/
theorem c5_counterexample :
    (format_edited_parts false [badFile, goodFile]).failure =
      some Failure.notEquivalent ∧
    (format_edited_parts false [badFile, goodFile]).yields = [] ∧
    (format_edited_parts false [goodFile]).yields =
      [("b.py", ⟨"y\n", "x\n", ["x"]⟩)] := by
  exact ⟨rfl, rfl, rfl⟩

/-- Claim C5 as amended: failures are NOT file-scoped: an exception while
processing one file (for example a verification failure at maximum margin)
propagates out of the format_edited_parts generator, so the remaining files
of the batch are never processed and nothing further is yielded. -/
theorem c5_failure_aborts_batch (isortOn : Bool) (f : FileInput)
    (rest : List FileInput) (e : Failure)
    (hfail : (processFile isortOn f.env f.worktree).2 = Except.error e) :
    format_edited_parts isortOn (f :: rest) =
      ⟨(processFile isortOn f.env f.worktree).1, [], some e⟩ := by
  simp [format_edited_parts, hfail]

/-- Witness for the amended C5: the failing first file ends the batch with
no yields and no events from the second file. -/
theorem c5_witness :
    (processFile false badFile.env badFile.worktree).2 =
      Except.error Failure.notEquivalent ∧
    format_edited_parts false (badFile :: [goodFile]) =
      ⟨(processFile false badFile.env badFile.worktree).1, [],
       some Failure.notEquivalent⟩ :=
  ⟨rfl, c5_failure_aborts_batch false badFile [goodFile]
    Failure.notEquivalent rfl⟩

/-- Claim C6: when run_black raises on its input in a non-short-circuited
iteration, the failure is surfaced immediately as a fatal error for the
file, whatever the current margin m relative to the maximum mx: the loop
ends with exactly the two events of the aborted iteration and no retry at a
wider margin. -/
theorem c6_black_failure_immediately_fatal (isortOn : Bool) (env : FileEnv)
    (wt ec : String) (el : Lines) (mx m : Nat) (rest : List Nat)
    (e : BlackError)
    (hnoshort : shortCircuitCond isortOn env wt ec el m = false)
    (hblack : env.run_black ec = Except.error e) :
    runMargins isortOn env wt ec el mx (m :: rest) =
      ([Event.revisionVsLines el m, Event.runBlack ec],
       Except.error Failure.blackError) := by
  have ht : tryMargin isortOn env wt ec el m =
      ([Event.revisionVsLines el m, Event.runBlack ec], StepOut.blackFail) := by
    unfold tryMargin
    rw [hnoshort]
    simp [hblack]
  simp [runMargins, ht]

/-- Witness for C6: a raising reformatter ends the loop at margin 0 despite
margin 1 being available. -/
theorem c6_witness :
    shortCircuitCond false envBlackFail "x\n" "x\n" ["x"] 0 = false ∧
    envBlackFail.run_black "x\n" = Except.error BlackError.mk ∧
    runMargins false envBlackFail "x\n" "x\n" ["x"] 1 (0 :: 1 :: []) =
      ([Event.revisionVsLines ["x"] 0, Event.runBlack "x\n"],
       Except.error Failure.blackError) :=
  ⟨rfl, rfl,
   c6_black_failure_immediately_fatal false envBlackFail "x\n" "x\n" ["x"]
     1 0 [1] BlackError.mk rfl rfl⟩

/-- Claim C7: within one file's retry loop, every run_black invocation
recorded in the trace carries the same input: the edited content computed
once before the loop, which does not depend on the context margin. -/
theorem c7_black_input_constant_across_iterations (isortOn : Bool)
    (env : FileEnv) (wt s : String)
    (h : Event.runBlack s ∈ (processFile isortOn env wt).1) :
    s = editedContentOf isortOn env wt := by
  unfold processFile at h
  exact runBlack_arg_runMargins _ _ _ _ _ _ _ _ h

/-- Witness for C7: the one run_black call of a successful reconciliation
was made on the edited content. -/
theorem c7_witness :
    Event.runBlack "y\n" ∈ (processFile false envOkChange "y\n").1 ∧
    "y\n" = editedContentOf false envOkChange "y\n" :=
  ⟨by decide,
   c7_black_input_constant_across_iterations false envOkChange "y\n" "y\n"
     (by decide)⟩

/-- Claim C8: in every non-short-circuited iteration in which the
reformatter succeeds, the steps happen in source order: edited line numbers
at the current margin, run_black on the edited content, diff of the edited
lines against the reformatted lines into opcodes, opcodes to chunks, choice
per chunk driven by the edited line numbers, concatenation of the chosen
lines, and AST verification of the concatenation against the edited
content. -/
theorem c8_iteration_step_order (isortOn : Bool) (env : FileEnv)
    (wt ec : String) (el : Lines) (m : Nat) (formatted : Lines)
    (hnoshort : shortCircuitCond isortOn env wt ec el m = false)
    (hblack : env.run_black ec = Except.ok formatted) :
    (tryMargin isortOn env wt ec el m).1 =
      [Event.revisionVsLines el m, Event.runBlack ec, Event.diffOp el formatted,
       Event.toChunks (opcodesOf env el formatted),
       Event.chooseOp (editedLinenums env el m),
       Event.concatOp (chosenOf env el formatted (editedLinenums env el m)),
       Event.verifyOp ec
         (resultStrOf env el formatted (editedLinenums env el m))] := by
  unfold tryMargin
  simp only [hnoshort, hblack, Bool.false_eq_true, if_false]
  split <;> simp [iterEvents]

/-- Witness for C8: the recorded step order of a concrete iteration. -/
theorem c8_witness :
    (tryMargin false envOkChange "y\n" "y\n" ["y"] 0).1 =
      [Event.revisionVsLines ["y"] 0, Event.runBlack "y\n",
       Event.diffOp ["y"] ["x"], Event.toChunks [], Event.chooseOp [0],
       Event.concatOp ["x"], Event.verifyOp "y\n" "x\n"] :=
  c8_iteration_step_order false envOkChange "y\n" "y\n" ["y"] 0 ["x"] rfl rfl

/-- Claim C9: provided main does not exit(1) for a missing isort package and
format_edited_parts does not raise, main returns 1 if and only if --check
was given and format_edited_parts yielded at least one file; in every other
case it returns 0. -/
theorem c9_main_return_value (args : Args) (avail : Bool)
    (files : List FileInput)
    (hnoexit : (args.isort && !avail) = false)
    (hok : (format_edited_parts args.isort files).failure = none) :
    ((Darker.main args avail files).outcome = MainOutcome.returned 1 ↔
      args.check = true ∧ (format_edited_parts args.isort files).yields ≠ []) ∧
    (¬(args.check = true ∧ (format_edited_parts args.isort files).yields ≠ []) →
      (Darker.main args avail files).outcome = MainOutcome.returned 0) := by
  have hout : (Darker.main args avail files).outcome =
      MainOutcome.returned
        (if args.check && !(format_edited_parts args.isort files).yields.isEmpty
         then 1 else 0) := by
    unfold main
    simp [hnoexit, hok]
  constructor
  · rw [hout]
    cases hc : args.check <;>
      cases hy : (format_edited_parts args.isort files).yields <;>
        simp [hc, hy]
  · intro h
    rw [hout]
    cases hc : args.check <;>
      cases hy : (format_edited_parts args.isort files).yields <;>
        simp [hc, hy] at h ⊢

/-- Witness for C9: with --check and one yielded file, main returns 1. -/
theorem c9_witness :
    (Darker.main ⟨true, false, false⟩ true [goodFile]).outcome =
      MainOutcome.returned 1 :=
  ((c9_main_return_value ⟨true, false, false⟩ true [goodFile] rfl rfl).1).mpr
    ⟨rfl, by decide⟩

/-- Claim C10: when --check or --diff is given, main performs no
modify_file call, so no source file on disk is overwritten for any yielded
result; writes can only happen when both options are absent. -/
theorem c10_no_writes_under_check_or_diff (args : Args) (avail : Bool)
    (files : List FileInput)
    (h : args.check = true ∨ args.diff = true) :
    (Darker.main args avail files).writes = [] := by
  unfold main
  split
  · rfl
  · rcases h with h | h <;> simp [h]

/-- Witness for C10: with --check given and a file to reformat, nothing is
written. -/
theorem c10_witness :
    (Darker.main ⟨true, false, false⟩ true [goodFile]).writes = [] :=
  c10_no_writes_under_check_or_diff ⟨true, false, false⟩ true [goodFile]
    (Or.inl rfl)

end Darker
